import Mathlib

/-!
Verification of the Gfx6 graphics-pipeline state compilation and command
emission layer (src/core/hw/gfxip/gfx6/gfx6GraphicsPipeline.cpp).

Each C++ routine relevant to the verified properties is shallowly embedded
as an executable Lean function over plain data.  Machine integers are
modelled as `Nat`; wherever a C computation can wrap or truncate into a
bitfield, the reduction is written explicitly.  Enumerator constants whose
numeric values live in hardware headers outside this repository are given
distinct opaque numeric values; the code under analysis only compares them
for equality, so the exact values are immaterial.
-/

namespace PalGfx6

/-! ## Out-of-order primitive mode (enum OutOfOrderPrimMode)

The setting is an integer out of the settings system; the code compares it
against the four enumerators below, so we model it as a `Nat`.  Any other
value is an "unrecognized" mode. -/

def OutOfOrderPrimDisable : Nat := 0
def OutOfOrderPrimSafe : Nat := 1
def OutOfOrderPrimAggressive : Nat := 2
def OutOfOrderPrimAlways : Nat := 3

/-- Read-only flags of a bound depth-stencil view (`DepthStencilView`). -/
structure DsViewInfo where
  readOnlyDepth : Bool
  readOnlyStencil : Bool
deriving DecidableEq

/-- The queries of a bound `DepthStencilState` used by the decision. -/
structure DepthStencilStateInfo where
  isDepthWriteEnabled : Bool
  isStencilWriteEnabled : Bool
  canDepthRunOutOfOrder : Bool
  canStencilRunOutOfOrder : Bool
  depthForcesOrdering : Bool
deriving DecidableEq

/-- Per-target queries of a bound `ColorBlendState`. -/
structure BlendStateInfo where
  isBlendEnabled : Nat → Bool
  isBlendCommutative : Nat → Bool

def MaxColorTargets : Nat := 8

/-- Embedding of `GraphicsPipeline::CanDrawPrimsOutOfOrder`
(gfx6GraphicsPipeline.cpp lines 148-241).  `psWritesUavs` is the pipeline's
`PsWritesUavs()` flag and `targetMask i` its `GetTargetMask(i)`; the three
`Option` arguments model the possibly-null state-object pointers.  The C
routine initializes `enableOutOfOrderPrims = true` and the branches only
ever set it to `false`; the per-target loop breaks at the first offending
target, which is equivalent to the `List.all` below. -/
def CanDrawPrimsOutOfOrder (psWritesUavs : Bool) (targetMask : Nat → Nat)
    (pDsView : Option DsViewInfo) (pDepthStencilState : Option DepthStencilStateInfo)
    (pBlendState : Option BlendStateInfo) (hasActiveQueries : Nat)
    (gfx7EnableOutOfOrderPrimitives : Nat) : Bool :=
  if (gfx7EnableOutOfOrderPrimitives = OutOfOrderPrimSafe) ∨
     (gfx7EnableOutOfOrderPrimitives = OutOfOrderPrimAggressive) then
    match pDepthStencilState with
    | none => false
    | some dss =>
      if psWritesUavs then false
      else
        let isDepthStencilWriteEnabled : Bool :=
          match pDsView with
          | some v =>
            ((!v.readOnlyDepth) && dss.isDepthWriteEnabled) ||
            ((!v.readOnlyStencil) && dss.isStencilWriteEnabled)
          | none => false
        let canDepthStencilRunOutOfOrder : Bool :=
          if (gfx7EnableOutOfOrderPrimitives = OutOfOrderPrimSafe) ∧ (hasActiveQueries ≠ 0) then
            !isDepthStencilWriteEnabled
          else
            (!isDepthStencilWriteEnabled) ||
            (dss.canDepthRunOutOfOrder && dss.canStencilRunOutOfOrder)
        -- Primitive ordering must be honored when no depth-stencil view is bound.
        if (canDepthStencilRunOutOfOrder = false) ∨ pDsView.isNone then false
        else
          let canRenderTargetRunOutOfOrder : Bool :=
            decide (gfx7EnableOutOfOrderPrimitives = OutOfOrderPrimAggressive) &&
            dss.depthForcesOrdering
          match pBlendState with
          | some blend =>
            (List.range MaxColorTargets).all fun i =>
              if 0 < targetMask i then
                let canBlendingRunOutOfOrder : Bool :=
                  blend.isBlendCommutative i &&
                  decide (gfx7EnableOutOfOrderPrimitives = OutOfOrderPrimAggressive)
                !((blend.isBlendEnabled i || !canRenderTargetRunOutOfOrder) &&
                  ((!canBlendingRunOutOfOrder) || isDepthStencilWriteEnabled))
              else true
          | none => canRenderTargetRunOutOfOrder
  else if gfx7EnableOutOfOrderPrimitives ≠ OutOfOrderPrimAlways then false
  else true

end PalGfx6

namespace PalGfx6

/-! ## Dynamic per-draw wave limit (GraphicsPipeline::CalcMaxWavesPerSh) -/

/-- The chip properties consumed by `CalcMaxWavesPerSh`
(`ChipProperties().gfx6`). -/
structure WaveChipProps where
  numSimdPerCu : Nat
  numWavesPerSimd : Nat
  maxNumCuPerSh : Nat
  numCuPerSh : Nat
deriving DecidableEq

/-- Embedding of `GraphicsPipeline::CalcMaxWavesPerSh`
(gfx6GraphicsPipeline.cpp lines 495-522).  Computes the WAVE_LIMIT field of
the SPI_SHADER_PGM_RSRC3* registers from the caller-supplied per-draw
`maxWavesPerCu`; zero means "unlimited". -/
def CalcMaxWavesPerSh (chip : WaveChipProps) (maxWavesPerCu : Nat) : Nat :=
  if 0 < maxWavesPerCu then
    let numWavefrontsPerCu := chip.numSimdPerCu * chip.numWavesPerSimd
    let maxWavesPerShGraphics := chip.maxNumCuPerSh * numWavefrontsPerCu
    -- MaxWavesPerShGraphicsUnitSize = 16: the WAVE_LIMIT field is in units
    -- of 16 waves.
    let maxWavesPerSh := maxWavesPerCu * chip.numCuPerSh
    min maxWavesPerShGraphics (max 1 (maxWavesPerSh / 16))
  else 0

/-! ## Late-alloc VS wave limit (GraphicsPipeline::SetupLateAllocVs) -/

/-- PAL constant `NumSimdPerCu` for this hardware family. -/
def NumSimdPerCu : Nat := 4

/-- Inputs of `GraphicsPipeline::SetupLateAllocVs`.  `targetLateAllocLimit`
is the already-resolved requested target
(`IsLateAllocVsLimit() ? GetLateAllocVsLimit() : m_pDevice->LateAllocVsLimit()`);
`sgprsField`/`vgprsField` are the SGPRS/VGPRS fields of
SPI_SHADER_PGM_RSRC1_VS from the binary's register list, and the scratch
flags are the SCRATCH_EN bits of SPI_SHADER_PGM_RSRC2_VS/PS. -/
structure LateAllocVsInput where
  gfxLevel : Nat                     -- 6, 7, 8 for GfxIpLevel::GfxIp6/7/8
  useFixedLateAllocVsLimit : Bool
  targetLateAllocLimit : Nat
  sgprsField : Nat
  vgprsField : Nat
  vsScratchEn : Bool
  psScratchEn : Bool
  numCuPerSh : Nat
  numCuAlwaysOnPerSh : Nat
  numPhysicalSgprs : Nat
  numPhysicalVgprs : Nat
  gfx7LateAllocVsOnCuAlwaysOn : Bool
  numScratchWavesPerCu : Nat
  maxLateAllocVsLimit : Nat
deriving DecidableEq

/-- The late-alloc wave limit computed by `SetupLateAllocVs`
(gfx6GraphicsPipeline.cpp lines 1279-1346) before the final
"minus one and clamp" step: 0 by default, the requested target verbatim in
fixed mode, and in computed mode the target bounded by the GPR- and
scratch-derived maximum concurrent VS wave count. -/
def lateAllocVsLimitPreClamp (i : LateAllocVsInput) : Nat :=
  let vsNumSgpr := i.sgprsField * 8
  let vsNumVgpr := i.vgprsField * 4
  if i.useFixedLateAllocVsLimit then
    i.targetLateAllocLimit
  else if 0 < i.targetLateAllocLimit ∧ 0 < vsNumSgpr ∧ 0 < vsNumVgpr then
    let numCuForLateAllocVs :=
      if i.gfx7LateAllocVsOnCuAlwaysOn then i.numCuAlwaysOnPerSh else i.numCuPerSh
    let simdPerSh := numCuForLateAllocVs * NumSimdPerCu
    let maxSgprVsWaves := (i.numPhysicalSgprs / vsNumSgpr) * simdPerSh
    let maxVgprVsWaves := (i.numPhysicalVgprs / vsNumVgpr) * simdPerSh
    let maxVsWaves0 := min maxSgprVsWaves maxVgprVsWaves
    let maxVsWaves :=
      if i.vsScratchEn ∧ i.psScratchEn then
        min maxVsWaves0 (numCuForLateAllocVs * i.numScratchWavesPerCu)
      else maxVsWaves0
    if maxVsWaves ≤ i.targetLateAllocLimit then
      (if 1 < maxVsWaves then maxVsWaves - 1 else 1)
    else i.targetLateAllocLimit
  else 0

/-- The LIMIT field of SPI_SHADER_LATE_ALLOC_VS stored by `SetupLateAllocVs`
(gfx6GraphicsPipeline.cpp lines 1259-1359).  On GfxIp6 the function body is
skipped entirely and the register keeps its zero-initialized (memset) value.
`maxLateAllocLimit = maxLateAllocVsLimit - 1` is computed in uint32
arithmetic, which the `% 2^32` makes explicit. -/
def spiShaderLateAllocVsLimit (i : LateAllocVsInput) : Nat :=
  if i.gfxLevel = 6 then 0
  else
    let maxLateAllocLimit := (i.maxLateAllocVsLimit + (2 ^ 32 - 1)) % 2 ^ 32
    let pre := lateAllocVsLimitPreClamp i
    let lateAllocLimit := if 0 < pre then pre - 1 else 0
    min lateAllocLimit maxLateAllocLimit

/-! ## Primitive-grouping policy (IA_MULTI_VGT_PARAM)

The IA_MULTI_VGT_PARAM bitfields touched by
`GraphicsPipeline::SetupIaMultiVgtParam` and
`GraphicsPipeline::FixupIaMultiVgtParamOnGfx7Plus` are modelled as a
record of `Nat` fields (each holding the field's register value). -/

structure IaMultiVgtParamRegs where
  primgroupSize : Nat      -- PRIMGROUP_SIZE (16-bit field)
  partVsWaveOn : Nat       -- PARTIAL_VS_WAVE_ON
  partEsWaveOn : Nat       -- PARTIAL_ES_WAVE_ON
  switchOnEop : Nat        -- SWITCH_ON_EOP
  switchOnEoi : Nat        -- SWITCH_ON_EOI
  wdSwitchOnEop : Nat      -- WD_SWITCH_ON_EOP__CI__VI
  maxPrimgrpInWave : Nat   -- MAX_PRIMGRP_IN_WAVE__VI
deriving DecidableEq

structure IaChipProps where
  gfxLevel : Nat           -- 6, 7, 8 for GfxIpLevel::GfxIp6/7/8
  numShaderEngines : Nat
  gsVgtTableDepth : Nat
deriving DecidableEq

/-- Pipeline-side inputs of the primitive-grouping policy:
stage-activation flags, erratum settings, and the relevant fields of the
already-parsed VGT_TF_PARAM and VGT_LS_HS_CONFIG registers. -/
structure IaPipelineState where
  isTessEnabled : Bool
  isGsEnabled : Bool
  isGsOnChip : Bool
  waMiscGsNullPrim : Bool
  waShaderOffChipGsHang : Bool
  distributionMode : Nat   -- VGT_TF_PARAM.DISTRIBUTION_MODE__VI
  numPatches : Nat         -- VGT_LS_HS_CONFIG.NUM_PATCHES
  hsNumInputCp : Nat       -- VGT_LS_HS_CONFIG.HS_NUM_INPUT_CP
deriving DecidableEq

/-- Hardware enum value NO_DIST of VGT_TF_PARAM.DISTRIBUTION_MODE. -/
def NO_DIST : Nat := 0

/-- First statement group of `FixupIaMultiVgtParamOnGfx7Plus`
(gfx6GraphicsPipeline.cpp lines 1165-1183): the GS-table reserve check.
`GsTableDepthReservedForEsWave = 3`, `GsPrimsPerEsThread = 256`;
`gsVgtTableDepth - 3` is unsigned (here truncated `Nat`) subtraction —
real table depths are all ≥ 3. -/
def fixupIaGsTable (chip : IaChipProps) (pipe : IaPipelineState)
    (p : IaMultiVgtParamRegs) : IaMultiVgtParamRegs :=
  if pipe.isGsEnabled = true ∧
     (chip.gsVgtTableDepth - 3) ≤ (256 / (p.primgroupSize + 1)) then
    { p with partEsWaveOn := 1 }
  else p

/-- Second statement group of `FixupIaMultiVgtParamOnGfx7Plus`
(lines 1185-1223): the GfxIp8-only block (MAX_PRIMGRP_IN_WAVE default,
distributed-tessellation partial-wave forcing, off-chip-GS-hang
workaround). -/
def fixupIaGfx8 (chip : IaChipProps) (pipe : IaPipelineState)
    (p : IaMultiVgtParamRegs) : IaMultiVgtParamRegs :=
  if 8 ≤ chip.gfxLevel then
    let pa : IaMultiVgtParamRegs := { p with maxPrimgrpInWave := 2 }
    let pb : IaMultiVgtParamRegs :=
      if pipe.distributionMode ≠ NO_DIST then
        if pipe.isGsEnabled then { pa with partEsWaveOn := 1 }
        else { pa with partVsWaveOn := 1 }
      else pa
    if pipe.isGsEnabled = true ∧ pipe.waShaderOffChipGsHang = true then
      { pb with partVsWaveOn := 1 }
    else pb
  else p

/-- Third statement group of `FixupIaMultiVgtParamOnGfx7Plus`
(lines 1225-1244): the WD_SWITCH_ON_EOP selection and its mandated
SWITCH_ON_EOI / PARTIAL_ES_WAVE_ON pairing when it is 0. -/
def fixupIaWdSwitch (chip : IaChipProps) (forceWdSwitchOnEop : Bool)
    (p : IaMultiVgtParamRegs) : IaMultiVgtParamRegs :=
  if p.switchOnEop = 1 ∨ chip.numShaderEngines ≤ 2 ∨ forceWdSwitchOnEop = true then
    { p with wdSwitchOnEop := 1 }
  else
    { p with wdSwitchOnEop := 0, switchOnEoi := 1, partEsWaveOn := 1 }

/-- Fourth statement group of `FixupIaMultiVgtParamOnGfx7Plus`
(lines 1246-1254): PARTIAL_VS_WAVE_ON forcing when SWITCH_ON_EOI is set,
on GfxIp7 parts with more than two shader engines
(`requirePartialVsWaveWithEoi`). -/
def fixupIaEoiPairing (chip : IaChipProps)
    (p : IaMultiVgtParamRegs) : IaMultiVgtParamRegs :=
  if p.switchOnEoi = 1 ∧ (chip.gfxLevel = 7 ∧ 2 < chip.numShaderEngines) then
    { p with partVsWaveOn := 1 }
  else p

/-- Embedding of `GraphicsPipeline::FixupIaMultiVgtParamOnGfx7Plus`
(gfx6GraphicsPipeline.cpp lines 1156-1255): the four statement groups of
the C routine applied in source order to the register value. -/
def FixupIaMultiVgtParamOnGfx7Plus (chip : IaChipProps) (pipe : IaPipelineState)
    (forceWdSwitchOnEop : Bool) (p : IaMultiVgtParamRegs) : IaMultiVgtParamRegs :=
  fixupIaEoiPairing chip
    (fixupIaWdSwitch chip forceWdSwitchOnEop
      (fixupIaGfx8 chip pipe
        (fixupIaGsTable chip pipe p)))

/-- PRIMGROUP_SIZE selection in `SetupIaMultiVgtParam`
(gfx6GraphicsPipeline.cpp lines 1100-1116).  PRIMGROUP_SIZE is a 16-bit
field, so the two forced assignments are reduced `% 2^16`, matching the C
bitfield truncation of `NUM_PATCHES - 1` and `256/HS_NUM_INPUT_CP - 1`
(in particular for the degenerate inputs 0).  In the final `else` branch
the binary-specified value is kept; zero is legal/unset there. -/
def setupIaPrimgroup (pipe : IaPipelineState)
    (binary : IaMultiVgtParamRegs) : IaMultiVgtParamRegs :=
  if pipe.isTessEnabled then
    { binary with primgroupSize := (pipe.numPatches + 65535) % 65536 }
  else if pipe.isGsEnabled = true ∧ pipe.hsNumInputCp ≠ 0 then
    { binary with primgroupSize := (256 / pipe.hsNumInputCp + 65535) % 65536 }
  else binary

/-- On-chip-GS PARTIAL_ES_WAVE_ON forcing in `SetupIaMultiVgtParam`
(lines 1118-1123). -/
def setupIaOnchipGs (pipe : IaPipelineState)
    (p : IaMultiVgtParamRegs) : IaMultiVgtParamRegs :=
  if pipe.isGsEnabled = true ∧ pipe.isGsOnChip = true then
    { p with partEsWaveOn := 1 }
  else p

/-- GS-null-primitive two-SE deadlock workaround in `SetupIaMultiVgtParam`
(lines 1125-1131). -/
def setupIaNullPrim (pipe : IaPipelineState)
    (p : IaMultiVgtParamRegs) : IaMultiVgtParamRegs :=
  if pipe.waMiscGsNullPrim = true ∧ pipe.isTessEnabled = true ∧ pipe.isGsEnabled = true then
    { p with partVsWaveOn := 1 }
  else p

/-- Embedding of `GraphicsPipeline::SetupIaMultiVgtParam`
(gfx6GraphicsPipeline.cpp lines 1088-1152).  `binary` is the (possibly
all-zero) IA_MULTI_VGT_PARAM value from the pipeline ELF's register list.
Returns the two per-slot register values (slot index 0 and 1); on Gfx7+
each slot runs the fixup with `forceWdSwitchOnEop = (idx != 0)`.  The
trailing stream-out PAL_ASSERT (lines 1143-1150) checks a compiler-owed
contract and writes nothing, so it contributes no state here. -/
def SetupIaMultiVgtParam (chip : IaChipProps) (pipe : IaPipelineState)
    (binary : IaMultiVgtParamRegs) : IaMultiVgtParamRegs × IaMultiVgtParamRegs :=
  let ia : IaMultiVgtParamRegs :=
    setupIaNullPrim pipe (setupIaOnchipGs pipe (setupIaPrimgroup pipe binary))
  (if 6 < chip.gfxLevel then FixupIaMultiVgtParamOnGfx7Plus chip pipe false ia else ia,
   if 6 < chip.gfxLevel then FixupIaMultiVgtParamOnGfx7Plus chip pipe true ia else ia)

/-! ## RB+ downconversion (SxDownConvertFormat / SxBlendOptEpsilon)

`SX_DOWNCONVERT_FORMAT` is the hardware downconvert code enum from the
Gfx6 register headers. -/

inductive SX_DOWNCONVERT_FORMAT where
  | SX_RT_EXPORT_NO_CONVERSION
  | SX_RT_EXPORT_32_R
  | SX_RT_EXPORT_32_A
  | SX_RT_EXPORT_10_11_11
  | SX_RT_EXPORT_2_10_10_10
  | SX_RT_EXPORT_8_8_8_8
  | SX_RT_EXPORT_5_6_5
  | SX_RT_EXPORT_1_5_5_5
  | SX_RT_EXPORT_4_4_4_4
  | SX_RT_EXPORT_16_16_GR
  | SX_RT_EXPORT_16_16_AR
deriving DecidableEq

/-- The channel/number formats distinguished by `SxDownConvertFormat`.  The
constructors are exactly the `ChNumFormat` enumerators named in its switch
(gfx6GraphicsPipeline.cpp lines 1754-1835); every other enumerator of the
full `ChNumFormat` enum (declared in a header outside this repository's
analyzed sources) falls into the switch's `default` branch and is treated
identically there, so the whole remainder of the enum is represented by
`otherFmt n`. -/
inductive ChNumFormat where
  | X4Y4Z4W4_Unorm | X4Y4Z4W4_Uscaled
  | X5Y6Z5_Unorm | X5Y6Z5_Uscaled
  | X5Y5Z5W1_Unorm | X5Y5Z5W1_Uscaled
  | X8_Unorm | X8_Snorm | X8_Uscaled | X8_Sscaled | X8_Uint | X8_Sint | X8_Srgb
  | L8_Unorm | P8_Uint
  | X8Y8_Unorm | X8Y8_Snorm | X8Y8_Uscaled | X8Y8_Sscaled | X8Y8_Uint
  | X8Y8_Sint | X8Y8_Srgb | L8A8_Unorm
  | X8Y8Z8W8_Unorm | X8Y8Z8W8_Snorm | X8Y8Z8W8_Uscaled | X8Y8Z8W8_Sscaled
  | X8Y8Z8W8_Uint | X8Y8Z8W8_Sint | X8Y8Z8W8_Srgb
  | X11Y11Z10_Float
  | X10Y10Z10W2_Unorm | X10Y10Z10W2_Uscaled
  | X16_Unorm | X16_Snorm | X16_Uscaled | X16_Sscaled | X16_Uint | X16_Sint
  | X16_Float | L16_Unorm
  | X16Y16_Unorm | X16Y16_Snorm | X16Y16_Uscaled | X16Y16_Sscaled
  | X16Y16_Uint | X16Y16_Sint | X16Y16_Float
  | X32_Uint | X32_Sint | X32_Float
  | otherFmt (n : Nat)

open SX_DOWNCONVERT_FORMAT in
/-- Embedding of the static `SxDownConvertFormat`
(gfx6GraphicsPipeline.cpp lines 1754-1835): the SX "downconvert" format
for a color-target channel format; the switch's `default` leaves the
initial `SX_RT_EXPORT_NO_CONVERSION`. -/
def SxDownConvertFormat : ChNumFormat → SX_DOWNCONVERT_FORMAT
  | .X4Y4Z4W4_Unorm | .X4Y4Z4W4_Uscaled => SX_RT_EXPORT_4_4_4_4
  | .X5Y6Z5_Unorm | .X5Y6Z5_Uscaled => SX_RT_EXPORT_5_6_5
  | .X5Y5Z5W1_Unorm | .X5Y5Z5W1_Uscaled => SX_RT_EXPORT_1_5_5_5
  | .X8_Unorm | .X8_Snorm | .X8_Uscaled | .X8_Sscaled | .X8_Uint | .X8_Sint
  | .X8_Srgb | .L8_Unorm | .P8_Uint
  | .X8Y8_Unorm | .X8Y8_Snorm | .X8Y8_Uscaled | .X8Y8_Sscaled | .X8Y8_Uint
  | .X8Y8_Sint | .X8Y8_Srgb | .L8A8_Unorm
  | .X8Y8Z8W8_Unorm | .X8Y8Z8W8_Snorm | .X8Y8Z8W8_Uscaled | .X8Y8Z8W8_Sscaled
  | .X8Y8Z8W8_Uint | .X8Y8Z8W8_Sint | .X8Y8Z8W8_Srgb => SX_RT_EXPORT_8_8_8_8
  | .X11Y11Z10_Float => SX_RT_EXPORT_10_11_11
  | .X10Y10Z10W2_Unorm | .X10Y10Z10W2_Uscaled => SX_RT_EXPORT_2_10_10_10
  | .X16_Unorm | .X16_Snorm | .X16_Uscaled | .X16_Sscaled | .X16_Uint
  | .X16_Sint | .X16_Float | .L16_Unorm => SX_RT_EXPORT_16_16_AR
  | .X16Y16_Unorm | .X16Y16_Snorm | .X16Y16_Uscaled | .X16Y16_Sscaled
  | .X16Y16_Uint | .X16Y16_Sint | .X16Y16_Float => SX_RT_EXPORT_16_16_GR
  | .X32_Uint | .X32_Sint | .X32_Float => SX_RT_EXPORT_32_R
  | .otherFmt _ => SX_RT_EXPORT_NO_CONVERSION

/-- Embedding of the static `SxBlendOptEpsilon`
(gfx6GraphicsPipeline.cpp lines 1839-1874): the blend-opt epsilon for a
downconvert code.  The C switch's `default` (which covers
`SX_RT_EXPORT_NO_CONVERSION`) raises a debug-only assertion and returns
the initial 0. -/
def SxBlendOptEpsilon : SX_DOWNCONVERT_FORMAT → Nat
  | .SX_RT_EXPORT_32_R | .SX_RT_EXPORT_32_A
  | .SX_RT_EXPORT_16_16_GR | .SX_RT_EXPORT_16_16_AR
  | .SX_RT_EXPORT_10_11_11 => 0
  | .SX_RT_EXPORT_2_10_10_10 => 3
  | .SX_RT_EXPORT_8_8_8_8 => 6
  | .SX_RT_EXPORT_5_6_5 => 11
  | .SX_RT_EXPORT_1_5_5_5 => 13
  | .SX_RT_EXPORT_4_4_4_4 => 15
  | .SX_RT_EXPORT_NO_CONVERSION => 0

/-- The per-slot epsilon value computed by `SetupRbPlusRegistersForSlot`
(gfx6GraphicsPipeline.cpp lines 776-777): `SxBlendOptEpsilon` is only
consulted when the downconvert format is a real conversion, otherwise the
slot's epsilon is 0. -/
def blendOptEpsilonForFormat (format : ChNumFormat) : Nat :=
  let downConvertFormat := SxDownConvertFormat format
  if downConvertFormat = .SX_RT_EXPORT_NO_CONVERSION then 0
  else SxBlendOptEpsilon downConvertFormat

/-- Embedding of the static `SxBlendOptControl`
(gfx6GraphicsPipeline.cpp lines 1878-1891), with the two MRT0 disable
mask constants from the register headers. -/
def SX_BLEND_OPT_CONTROL_MRT0_COLOR_OPT_DISABLE_MASK : Nat := 1
def SX_BLEND_OPT_CONTROL_MRT0_ALPHA_OPT_DISABLE_MASK : Nat := 2

def SxBlendOptControl (writeMask : Nat) : Nat :=
  let colorOptDisable :=
    if writeMask &&& 0x7 ≠ 0 then 0 else SX_BLEND_OPT_CONTROL_MRT0_COLOR_OPT_DISABLE_MASK
  let alphaOptDisable :=
    if writeMask &&& 0x8 ≠ 0 then 0 else SX_BLEND_OPT_CONTROL_MRT0_ALPHA_OPT_DISABLE_MASK
  colorOptDisable ||| alphaOptDisable

/-! ## Command emission (WriteShCommands / WriteContextCommands)

The PM4 packets emitted at bind time are abstracted as markers: the chunk
collaborators' own emissions are single opaque markers carrying the
"LOAD path in use" template argument they receive, since their bodies live
in other translation units. -/

inductive Pm4Cmd where
  | setLateAllocVs (value : Nat)         -- WriteSetOneShReg(mmSPI_SHADER_LATE_ALLOC_VS)
  | loadShRegsIndex (gpuVirtAddr count : Nat)
  | chunkLsHsShCmds (useLoadPath : Bool)
  | chunkEsGsShCmds (useLoadPath : Bool)
  | chunkVsPsShCmds (useLoadPath : Bool)
  | setContextRegs                       -- WriteContextCommandsSetPath block
  | loadCtxRegsIndex (gpuVirtAddr count : Nat)
  | chunkLsHsCtxCmds (useLoadPath : Bool)
  | chunkEsGsCtxCmds (useLoadPath : Bool)
  | chunkVsPsCtxCmds (useLoadPath : Bool)
  | rmwDbAlphaToMask (value : Nat)       -- WriteContextRegRmw(mmDB_ALPHA_TO_MASK)
  | rmwDbRenderOverride (value : Nat)    -- WriteContextRegRmw(mmDB_RENDER_OVERRIDE)
deriving DecidableEq

/-- The compiled LOAD path state `m_loadPath` (zero after the constructor's
memset, filled by `HwlInit` when the LOAD_INDEX path is enabled). -/
structure LoadPathInfo where
  gpuVirtAddrCtx : Nat
  countCtx : Nat
  gpuVirtAddrSh : Nat
  countSh : Nat
deriving DecidableEq

/-- Embedding of `GraphicsPipeline::WriteShCommands`
(gfx6GraphicsPipeline.cpp lines 601-658) as the sequence of packets
emitted.  The LOAD_INDEX path is disabled when no SH LoadBlock was
compiled (`m_loadPath.countSh == 0`) or the destination stream's PM4
optimizer is enabled; the SET fallback writes SPI_SHADER_LATE_ALLOC_VS
(Gfx7+ only) and the chunks' SET packets.  The dynamic per-stage SET
writes happen inside the chunk markers in both paths. -/
def WriteShCommands (gfxLevel : Nat) (isTessEnabled isGsEnabled : Bool)
    (loadPath : LoadPathInfo) (spiShaderLateAllocVs : Nat)
    (pm4OptimizerEnabled : Bool) : List Pm4Cmd :=
  if loadPath.countSh = 0 ∨ pm4OptimizerEnabled = true then
    (if 7 ≤ gfxLevel then [.setLateAllocVs spiShaderLateAllocVs] else []) ++
    (if isTessEnabled then [.chunkLsHsShCmds false] else []) ++
    (if isGsEnabled then [.chunkEsGsShCmds false] else []) ++
    [.chunkVsPsShCmds false]
  else
    [.loadShRegsIndex loadPath.gpuVirtAddrSh loadPath.countSh] ++
    (if isTessEnabled then [.chunkLsHsShCmds true] else []) ++
    (if isGsEnabled then [.chunkEsGsShCmds true] else []) ++
    [.chunkVsPsShCmds true]

/-- Embedding of `GraphicsPipeline::WriteContextCommands`
(gfx6GraphicsPipeline.cpp lines 663-703).  Same LOAD-vs-SET selection for
the context group (the LOAD packet covers the chunks' registers too, so no
chunk emission follows it); the two trailing read-modify-write packets are
emitted on both paths. -/
def WriteContextCommands (isTessEnabled isGsEnabled : Bool)
    (loadPath : LoadPathInfo) (dbAlphaToMask dbRenderOverride : Nat)
    (pm4OptimizerEnabled : Bool) : List Pm4Cmd :=
  (if loadPath.countCtx = 0 ∨ pm4OptimizerEnabled = true then
    [.setContextRegs] ++
    (if isTessEnabled then [.chunkLsHsCtxCmds false] else []) ++
    (if isGsEnabled then [.chunkEsGsCtxCmds false] else []) ++
    [.chunkVsPsCtxCmds false]
  else
    [.loadCtxRegsIndex loadPath.gpuVirtAddrCtx loadPath.countCtx]) ++
  [.rmwDbAlphaToMask dbAlphaToMask, .rmwDbRenderOverride dbRenderOverride]

/-- Whether a packet list contains a LOAD_SH_REG_INDEX packet. -/
def usesLoadShPacket (cmds : List Pm4Cmd) : Bool :=
  cmds.any fun c =>
    match c with
    | .loadShRegsIndex _ _ => true
    | _ => false

/-- Whether a packet list contains a LOAD_CONTEXT_REG_INDEX packet. -/
def usesLoadCtxPacket (cmds : List Pm4Cmd) : Bool :=
  cmds.any fun c =>
    match c with
    | .loadCtxRegsIndex _ _ => true
    | _ => false

/-! ## LoadBlock count pairing (EarlyInit / HwlInit) -/

/-- The register-preload budget part of `GraphicsPipelineLoadInfo`. -/
structure LoadRegCounts where
  loadedShRegCount : Nat
  loadedCtxRegCount : Nat
deriving DecidableEq

/-- Base SH register count loaded via LOAD_SH_REG_INDEX
(gfx6GraphicsPipeline.cpp lines 66-67): just SPI_SHADER_LATE_ALLOC_VS. -/
def BaseLoadedShRegCount : Nat := 1

/-- Base context register count loaded via LOAD_CNTX_REG_INDEX
(gfx6GraphicsPipeline.cpp lines 70-84): the 14 listed registers. -/
def BaseLoadedCntxRegCount : Nat := 14

/-- Modelled from the spec: the per-stage chunk `EarlyInit` implementations
(gfx6PipelineChunkLsHs/EsGs/VsPs.cpp, outside the analyzed sources) add
their own register counts to the load info, requesting a non-zero budget
only when the device setting enables register preloading ("If device
settings enable register preloading, requests a non-zero preload budget
for both shared and per-stage register groups; otherwise both are zero").
`dSh`/`dCtx` are the chunk's own (arbitrary) contributions. -/
def chunkEarlyInitCounts (enableLoadIndexForObjectBinds : Bool)
    (dSh dCtx : Nat) (info : LoadRegCounts) : LoadRegCounts :=
  if enableLoadIndexForObjectBinds then
    { loadedShRegCount := info.loadedShRegCount + dSh,
      loadedCtxRegCount := info.loadedCtxRegCount + dCtx }
  else info

/-- The load-count part of `GraphicsPipeline::EarlyInit`
(gfx6GraphicsPipeline.cpp lines 289-326): base counts when
`enableLoadIndexForObjectBinds` is set, then each active chunk's EarlyInit
contribution (LsHs only when tessellation is on, EsGs only when geometry
is on, VsPs always). -/
def earlyInitLoadCounts (enableLoadIndexForObjectBinds : Bool)
    (isTessEnabled isGsEnabled : Bool)
    (lsHsSh lsHsCtx esGsSh esGsCtx vsPsSh vsPsCtx : Nat) : LoadRegCounts :=
  let info : LoadRegCounts :=
    if enableLoadIndexForObjectBinds then
      ⟨BaseLoadedShRegCount, BaseLoadedCntxRegCount⟩
    else ⟨0, 0⟩
  let info :=
    if isTessEnabled then chunkEarlyInitCounts enableLoadIndexForObjectBinds lsHsSh lsHsCtx info
    else info
  let info :=
    if isGsEnabled then chunkEarlyInitCounts enableLoadIndexForObjectBinds esGsSh esGsCtx info
    else info
  chunkEarlyInitCounts enableLoadIndexForObjectBinds vsPsSh vsPsCtx info

/-- Modelled from the spec: `GraphicsPipelineUploader` (outside the
analyzed sources) is constructed from the two preload budgets and
`EnableLoadIndexPath()` reports whether any budget was requested; on a
successful upload `CtxRegisterCount`/`ShRegisterCount` equal the budgets
("sized from the planner's preload budgets ... if preloading is enabled,
finalize LoadBlock addresses/counts"). -/
def uploaderEnableLoadIndexPath (info : LoadRegCounts) : Bool :=
  decide (0 < info.loadedCtxRegCount + info.loadedShRegCount)

/-- The `m_loadPath` count assignment in `GraphicsPipeline::HwlInit`
(gfx6GraphicsPipeline.cpp lines 378-384): the counts stay at their
constructor-memset zeros unless the uploader's LOAD_INDEX path is enabled,
in which case they take the uploader's register counts.  Returns
(countCtx, countSh). -/
def hwlInitLoadPathCounts (info : LoadRegCounts) : Nat × Nat :=
  if uploaderEnableLoadIndexPath info then
    (info.loadedCtxRegCount, info.loadedShRegCount)
  else (0, 0)

/-! ## Non-shader color registers (SetupNonShaderRegisters)

The CB mode enumerators below come from the Gfx6 register headers; only
their distinctness matters here. -/

def CB_DISABLE : Nat := 0
def CB_NORMAL : Nat := 1
def CB_ELIMINATE_FAST_CLEAR : Nat := 2
def CB_RESOLVE : Nat := 3
def CB_FMASK_DECOMPRESS : Nat := 5
def CB_DCC_DECOMPRESS : Nat := 7

inductive LogicOp where
  | Copy | Clear | And | AndReverse | AndInverted | Noop | Xor | Or | Nor
  | Equiv | Invert | OrReverse | CopyInverted | OrInverted | Nand | Set
deriving DecidableEq

/-- Embedding of the static `Rop3` (gfx6GraphicsPipeline.cpp lines
1725-1749): logic op to ROP3 code. -/
def Rop3 : LogicOp → Nat
  | .Copy => 0xCC
  | .Clear => 0x00
  | .And => 0x88
  | .AndReverse => 0x44
  | .AndInverted => 0x22
  | .Noop => 0xAA
  | .Xor => 0x66
  | .Or => 0xEE
  | .Nor => 0x11
  | .Equiv => 0x99
  | .Invert => 0x55
  | .OrReverse => 0xDD
  | .CopyInverted => 0x33
  | .OrInverted => 0xBB
  | .Nand => 0x77
  | .Set => 0xFF

/-- Inputs of `SetupNonShaderRegisters` relevant to the color mode and
write masks: the pipeline's special-category flags, the create-info blend
state, the binary's CB_SHADER_MASK register value, and the device
settings consulted by the routine. -/
structure CbSetupInput where
  isFastClearEliminate : Bool
  isFmaskDecompress : Bool
  isDccDecompress : Bool
  isResolveFixedFunc : Bool
  dualSourceBlendEnable : Bool
  logicOp : LogicOp
  channelWriteMask : Nat → Nat       -- createInfo.cbState.target[rt].channelWriteMask
  regCbShaderMask : Nat              -- registers.At(mmCB_SHADER_MASK)
  alphaToCoverageEnable : Bool
  rbPlusEnable : Bool                -- settings.gfx8RbPlusEnable
  chipRbPlus : Bool                  -- chipProps.gfx6.rbPlus
  isInternal : Bool
  tossPointAfterPs : Bool            -- tossPointMode == TossPointAfterPs

/-- The registers produced by the embedded part of
`SetupNonShaderRegisters` (PA_SC_LINE_CNTL is untouched by the category
logic and omitted). -/
structure CbRegs where
  cbColorControlMode : Nat
  cbColorControlRop3 : Nat
  disableDualQuad : Nat              -- CB_COLOR_CONTROL.DISABLE_DUAL_QUAD__VI
  cbShaderMask : Nat
  cbTargetMask : Nat
  alphaToMaskEnable : Bool           -- DB_ALPHA_TO_MASK.ALPHA_TO_MASK_ENABLE
deriving DecidableEq

/-- CB_TARGET_MASK accumulation from the create-info write masks
(gfx6GraphicsPipeline.cpp lines 807-811): each target's 4-bit channel
mask ORed in at a 4-bit stride. -/
def cbTargetMaskFromCreateInfo (writeMask : Nat → Nat) : Nat :=
  (List.range MaxColorTargets).foldl
    (fun acc rt => acc ||| ((writeMask rt &&& 0xF) <<< (4 * rt))) 0

/-- The five special pipeline categories of §4.3. -/
inductive CbCategory where
  | fastClearEliminate | fmaskDecompress | dccDecompress | resolveFixedFunc | normal
deriving DecidableEq

/-- The category selected by the if/else-if precedence chain of
`SetupNonShaderRegisters` (lines 813-859): first matching flag wins,
`normal` is the catch-all. -/
def selectCbCategory (fce fmask dcc resolve : Bool) : CbCategory :=
  if fce then .fastClearEliminate
  else if fmask then .fmaskDecompress
  else if dcc then .dccDecompress
  else if resolve then .resolveFixedFunc
  else .normal

/-- The category if/else-if chain of `SetupNonShaderRegisters`
(gfx6GraphicsPipeline.cpp lines 813-859), producing
(MODE, ROP3, CB_SHADER_MASK, CB_TARGET_MASK).  The first three special
categories assign the whole 32-bit mask registers to 0xF; the
fixed-function-resolve category writes only the OUTPUT0/TARGET0 bitfields
(low nibble), here `v / 16 * 16 + 0xF`; the catch-all keeps both masks
and splits into CB_DISABLE (either mask zero; ROP3 keeps its
zero-initialized value) or CB_NORMAL with the client logic op. -/
def cbCategoryRegs (i : CbSetupInput) : Nat × Nat × Nat × Nat :=
  let cbShaderMask := i.regCbShaderMask
  let cbTargetMask := cbTargetMaskFromCreateInfo i.channelWriteMask
  if i.isFastClearEliminate then
    (CB_ELIMINATE_FAST_CLEAR, Rop3 .Copy, 0xF, 0xF)
  else if i.isFmaskDecompress then
    (CB_FMASK_DECOMPRESS, Rop3 .Copy, 0xF, 0xF)
  else if i.isDccDecompress then
    (CB_DCC_DECOMPRESS, Rop3 .Copy, 0xF, 0xF)
  else if i.isResolveFixedFunc then
    (CB_RESOLVE, Rop3 .Copy, cbShaderMask / 16 * 16 + 0xF, cbTargetMask / 16 * 16 + 0xF)
  else if cbShaderMask = 0 ∨ cbTargetMask = 0 then
    (CB_DISABLE, 0, cbShaderMask, cbTargetMask)
  else
    (CB_NORMAL, Rop3 i.logicOp, cbShaderMask, cbTargetMask)

/-- Embedding of the color-mode / write-mask part of
`GraphicsPipeline::SetupNonShaderRegisters`
(gfx6GraphicsPipeline.cpp lines 792-916): the category chain, the
dual-source-blend hang fallback (CB writes disabled when the shader does
not export to both RT0 and RT1 halves of CB_SHADER_MASK, alerted but not
an error), the RB+ DISABLE_DUAL_QUAD selection, and the toss-point
override zeroing CB_TARGET_MASK.  The per-slot RB+ SX register values
derive from `blendOptEpsilonForFormat` / `SxBlendOptControl` on each
target's format and are modelled by those functions; they share no fields
with the registers computed here. -/
def SetupNonShaderCbRegs (i : CbSetupInput) : CbRegs :=
  let r := cbCategoryRegs i
  let mode := r.1
  let rop3 := r.2.1
  let cbShaderMask := r.2.2.1
  let cbTargetMask := r.2.2.2
  let mode :=
    if i.dualSourceBlendEnable = true ∧
       ((cbShaderMask &&& 0x0F) = 0 ∨ (cbShaderMask &&& 0xF0) = 0) then CB_DISABLE
    else mode
  let disableDualQuad :=
    if i.rbPlusEnable = true ∧ i.dualSourceBlendEnable = false ∧ mode ≠ CB_RESOLVE then 0
    else if i.chipRbPlus = true then 1 else 0
  let cbTargetMask :=
    if i.isInternal = false ∧ i.tossPointAfterPs = true then 0 else cbTargetMask
  ⟨mode, rop3, disableDualQuad, cbShaderMask, cbTargetMask, i.alphaToCoverageEnable⟩

/-- An external (client-created) pipeline in the `normal` category: no
special flag, dual-source blending off, no toss point, binary
CB_SHADER_MASK 0xF, client write mask 0x3 on RT0 only. -/
def cbNormalCategoryInput : CbSetupInput :=
  { isFastClearEliminate := false, isFmaskDecompress := false,
    isDccDecompress := false, isResolveFixedFunc := false,
    dualSourceBlendEnable := false, logicOp := .Copy,
    channelWriteMask := fun rt => if rt = 0 then 0x3 else 0,
    regCbShaderMask := 0xF, alphaToCoverageEnable := false,
    rbPlusEnable := false, chipRbPlus := false,
    isInternal := false, tossPointAfterPs := false }

/-- A fast-clear-eliminate pipeline with the same client state. -/
def cbFceInput : CbSetupInput :=
  { cbNormalCategoryInput with isFastClearEliminate := true }

/-! ## User-data signature building (SetupSignatureForStageFromElf)

Constants below whose numeric values live outside the analyzed sources
(`Abi::UserDataMapping` in palPipelineAbi.h, `MaxUserDataEntries`, the
SPI_SHADER_USER_DATA_* register addresses) are given representative
values; the code only compares them for equality / against the threshold,
and every reserved-role value is far above `MaxUserDataEntries`, as in the
real headers. -/

def UserDataNotMapped : Nat := 0
def MaxUserDataEntries : Nat := 128
def InternalTblStartReg : Nat := 0
def ConstBufTblStartReg : Nat := 1

def UserDataMappingGlobalTable : Nat := 0x10000000
def UserDataMappingPerShaderTable : Nat := 0x10000001
def UserDataMappingSpillTable : Nat := 0x10000002
def UserDataMappingBaseVertex : Nat := 0x10000003
def UserDataMappingBaseInstance : Nat := 0x10000004
def UserDataMappingDrawIndex : Nat := 0x10000005
def UserDataMappingWorkgroup : Nat := 0x10000006
def UserDataMappingBaseIndex : Nat := 0x10000007
def UserDataMappingLog2IndexSize : Nat := 0x10000008
def UserDataMappingViewId : Nat := 0x10000009
def UserDataMappingEsGsLdsSize : Nat := 0x1000000A

/-- SPI_SHADER_USER_DATA_VS_0 register address (Gfx6 headers). -/
def mmSPI_SHADER_USER_DATA_VS_0 : Nat := 0x2C4C

/-- Per-stage configuration of `SetupSignatureForStageFromElf`:
the stage's register window, the backward-compatibility sentinels
(`streamOutTableEntryPlus1` / `indirectTableEntryPlus1`, both
`UserDataNotMapped` when the metadata lacks them), and which reserved
roles this stage owns (`isVsStage` for the stream-out table,
`isVbTableStage` for the vertex-buffer table, `acceptsEsGsLdsSize` for a
non-null `pEsGsLdsSizeReg`). -/
structure StageScanConfig where
  baseRegAddr : Nat
  lastRegAddr : Nat
  streamOutTableEntryPlus1 : Nat
  indirectTableEntryPlus1 : Nat
  isVsStage : Bool
  isVbTableStage : Bool
  acceptsEsGsLdsSize : Bool
deriving DecidableEq

/-- The signature fields written by the per-stage scan, plus an
`assertFailed` flag recording that one of the routine's internal
consistency checks (PAL_ASSERT / PAL_ALERT / PAL_NEVER_CALLED, all
debug-only and non-fatal in release) had a failing condition. -/
structure GfxSignatureState where
  streamOutTableRegAddr : Nat
  vertexBufTableRegAddr : Nat
  vertexOffsetRegAddr : Nat
  drawIndexRegAddr : Nat
  spillTableRegAddr : Nat
  viewIdRegAddr : Nat
  firstUserSgprRegAddr : Nat
  userSgprCount : Nat
  mappedEntries : List (Nat × Nat)   -- (userSgprId, value) writes, in scan order
  esGsLdsSizeReg : Nat
  assertFailed : Bool
deriving DecidableEq

/-- The scan state at entry: the `NullGfxSignature` initializer, where
every register address is `UserDataNotMapped` (= 0). -/
def initGfxSignatureState : GfxSignatureState :=
  ⟨UserDataNotMapped, UserDataNotMapped, UserDataNotMapped, UserDataNotMapped,
   UserDataNotMapped, UserDataNotMapped, UserDataNotMapped, 0, [],
   UserDataNotMapped, false⟩

/-- The branch chain applied to one populated user-SGPR register
(gfx6GraphicsPipeline.cpp lines 1549-1658), in source order: the two
backward-compatibility sentinel checks, the pass-through binding-id case
(`value < MaxUserDataEntries`), then each reserved role.  `value + 1` is
uint32 arithmetic, hence the `% 2^32`.  Every PAL_ASSERT/PAL_ALERT whose
condition fails (and the final PAL_NEVER_CALLED branch) sets
`assertFailed`; the state updates after them happen regardless, as in the
C code (the macros do not alter control flow in release builds). -/
def processUserDataRegister (cfg : StageScanConfig) (offset value : Nat)
    (s : GfxSignatureState) : GfxSignatureState :=
  if (value + 1) % 2 ^ 32 = cfg.streamOutTableEntryPlus1 then
    if cfg.isVsStage then { s with streamOutTableRegAddr := offset } else s
  else if (value + 1) % 2 ^ 32 = cfg.indirectTableEntryPlus1 then
    -- PAL_ASSERT_MSG(stage == vbTableStage)
    if cfg.isVbTableStage then { s with vertexBufTableRegAddr := offset }
    else { s with assertFailed := true }
  else if value < MaxUserDataEntries then
    let first := if s.firstUserSgprRegAddr = UserDataNotMapped then offset
                 else s.firstUserSgprRegAddr
    -- PAL_ASSERT(offset >= firstUserSgprRegAddr)
    let s := if offset < first then { s with assertFailed := true } else s
    let userSgprId := offset - first
    { s with firstUserSgprRegAddr := first,
             mappedEntries := s.mappedEntries ++ [(userSgprId, value)],
             userSgprCount := max (userSgprId + 1) s.userSgprCount }
  else if value = UserDataMappingGlobalTable then
    if offset = cfg.baseRegAddr + InternalTblStartReg then s
    else { s with assertFailed := true }
  else if value = UserDataMappingPerShaderTable then
    if offset = cfg.baseRegAddr + ConstBufTblStartReg then s
    else { s with assertFailed := true }
  else if value = UserDataMappingSpillTable then
    { s with spillTableRegAddr := offset }
  else if value = UserDataMappingWorkgroup then
    { s with assertFailed := true }   -- PAL_ALERT_ALWAYS: compute pipelines only
  else if value = UserDataMappingBaseVertex then
    -- PAL_ASSERT: only one base-vertex user-SGPR per pipeline
    let s := if s.vertexOffsetRegAddr = offset ∨
                s.vertexOffsetRegAddr = UserDataNotMapped then s
             else { s with assertFailed := true }
    { s with vertexOffsetRegAddr := offset }
  else if value = UserDataMappingBaseInstance then
    -- PAL_ASSERT: immediately follows the base-vertex user-SGPR
    let s := if s.vertexOffsetRegAddr = offset - 1 ∨
                s.vertexOffsetRegAddr = UserDataNotMapped then s
             else { s with assertFailed := true }
    { s with vertexOffsetRegAddr := offset - 1 }
  else if value = UserDataMappingDrawIndex then
    let s := if s.drawIndexRegAddr = offset ∨
                s.drawIndexRegAddr = UserDataNotMapped then s
             else { s with assertFailed := true }
    { s with drawIndexRegAddr := offset }
  else if value = UserDataMappingEsGsLdsSize ∧ cfg.acceptsEsGsLdsSize = true then
    { s with esGsLdsSizeReg := offset }
  else if value = UserDataMappingBaseIndex ∨ value = UserDataMappingLog2IndexSize then
    { s with assertFailed := true }   -- PAL_ALERT_ALWAYS: Gfx9+ only
  else if value = UserDataMappingViewId then
    { s with viewIdRegAddr := offset }
  else
    { s with assertFailed := true }   -- PAL_NEVER_CALLED: illegal user-data register

/-- The ascending-address register-window scan of
`SetupSignatureForStageFromElf` (gfx6GraphicsPipeline.cpp lines
1549-1659): each populated register in `[baseRegAddr, lastRegAddr]` is
processed in order; absent registers are skipped. -/
def SetupSignatureForStageScan (cfg : StageScanConfig)
    (registers : Nat → Option Nat) : GfxSignatureState :=
  (List.range (cfg.lastRegAddr + 1 - cfg.baseRegAddr)).foldl
    (fun s k =>
      match registers (cfg.baseRegAddr + k) with
      | some value => processUserDataRegister cfg (cfg.baseRegAddr + k) value s
      | none => s)
    initGfxSignatureState

/-- The VS-stage scan configuration of a pipeline without tessellation or
geometry (VS owns both the stream-out and vertex-buffer tables, and
`pEsGsLdsSizeReg = &esGsLdsSizeRegVs` is non-null) whose metadata has no
stream-out or indirect-table sentinel entries. -/
def vsStageScanConfig : StageScanConfig :=
  ⟨mmSPI_SHADER_USER_DATA_VS_0, mmSPI_SHADER_USER_DATA_VS_0 + 15,
   UserDataNotMapped, UserDataNotMapped, true, true, true⟩

/-- A register list mapping exactly one user-SGPR: the base-instance role
at the stage's first user-data register, with base-vertex mapped
nowhere. -/
def regsOnlyBaseInstance : Nat → Option Nat := fun off =>
  if off = mmSPI_SHADER_USER_DATA_VS_0 then some UserDataMappingBaseInstance
  else none

/-! ## Theorems -/

theorem fixupIaGsTable_primgroupSize (chip : IaChipProps)
    (pipe : IaPipelineState) (p : IaMultiVgtParamRegs) :
    (fixupIaGsTable chip pipe p).primgroupSize = p.primgroupSize := by
  unfold fixupIaGsTable
  split <;> rfl

theorem fixupIaGsTable_switchOnEop (chip : IaChipProps)
    (pipe : IaPipelineState) (p : IaMultiVgtParamRegs) :
    (fixupIaGsTable chip pipe p).switchOnEop = p.switchOnEop := by
  unfold fixupIaGsTable
  split <;> rfl

theorem fixupIaGfx8_primgroupSize (chip : IaChipProps)
    (pipe : IaPipelineState) (p : IaMultiVgtParamRegs) :
    (fixupIaGfx8 chip pipe p).primgroupSize = p.primgroupSize := by
  unfold fixupIaGfx8
  repeat' split
  all_goals rfl

theorem fixupIaGfx8_switchOnEop (chip : IaChipProps)
    (pipe : IaPipelineState) (p : IaMultiVgtParamRegs) :
    (fixupIaGfx8 chip pipe p).switchOnEop = p.switchOnEop := by
  unfold fixupIaGfx8
  repeat' split
  all_goals rfl

theorem fixupIaWdSwitch_primgroupSize (chip : IaChipProps) (force : Bool)
    (p : IaMultiVgtParamRegs) :
    (fixupIaWdSwitch chip force p).primgroupSize = p.primgroupSize := by
  unfold fixupIaWdSwitch
  split <;> rfl

theorem fixupIaEoiPairing_primgroupSize (chip : IaChipProps)
    (p : IaMultiVgtParamRegs) :
    (fixupIaEoiPairing chip p).primgroupSize = p.primgroupSize := by
  unfold fixupIaEoiPairing
  split <;> rfl

theorem fixupIaEoiPairing_wdAndEoi (chip : IaChipProps)
    (p : IaMultiVgtParamRegs) :
    (fixupIaEoiPairing chip p).wdSwitchOnEop = p.wdSwitchOnEop ∧
    (fixupIaEoiPairing chip p).switchOnEoi = p.switchOnEoi ∧
    (fixupIaEoiPairing chip p).partEsWaveOn = p.partEsWaveOn := by
  unfold fixupIaEoiPairing
  split <;> exact ⟨rfl, rfl, rfl⟩

/-- The Gfx7+ fixup never changes PRIMGROUP_SIZE: it only adjusts the
wave-switch and partial-wave controls. -/
theorem fixupIaMultiVgtParam_primgroupSize (chip : IaChipProps)
    (pipe : IaPipelineState) (force : Bool) (p : IaMultiVgtParamRegs) :
    (FixupIaMultiVgtParamOnGfx7Plus chip pipe force p).primgroupSize =
      p.primgroupSize := by
  unfold FixupIaMultiVgtParamOnGfx7Plus
  rw [fixupIaEoiPairing_primgroupSize, fixupIaWdSwitch_primgroupSize,
    fixupIaGfx8_primgroupSize, fixupIaGsTable_primgroupSize]

/-- C1: For every combination of depth-stencil view, depth-stencil state,
blend state and active-query count (and every pipeline `PsWritesUavs` flag
and target-mask assignment), `CanDrawPrimsOutOfOrder` returns `true` when
the global mode is `Always`; returns `false` when the mode is `Disabled`
or any other unrecognized value; and returns `false` when the mode is
`Safe` and the depth-stencil view is null. -/
theorem canDrawPrimsOutOfOrder_mode_gating
    (psWritesUavs : Bool) (targetMask : Nat → Nat)
    (pDsView : Option DsViewInfo) (pDss : Option DepthStencilStateInfo)
    (pBlend : Option BlendStateInfo) (queries mode : Nat)
    (hNotSafe : mode ≠ OutOfOrderPrimSafe)
    (hNotAggr : mode ≠ OutOfOrderPrimAggressive)
    (hNotAlways : mode ≠ OutOfOrderPrimAlways) :
    (CanDrawPrimsOutOfOrder psWritesUavs targetMask pDsView pDss pBlend queries
        OutOfOrderPrimAlways = true)
  ∧ (CanDrawPrimsOutOfOrder psWritesUavs targetMask pDsView pDss pBlend queries
        mode = false)
  ∧ (CanDrawPrimsOutOfOrder psWritesUavs targetMask none pDss pBlend queries
        OutOfOrderPrimSafe = false) := by
  refine ⟨?_, ?_, ?_⟩
  · simp [CanDrawPrimsOutOfOrder, OutOfOrderPrimAlways, OutOfOrderPrimSafe,
      OutOfOrderPrimAggressive]
  · simp only [CanDrawPrimsOutOfOrder]
    rw [if_neg (by exact fun h => h.elim hNotSafe hNotAggr), if_pos hNotAlways]
  · cases pDss with
    | none => simp [CanDrawPrimsOutOfOrder, OutOfOrderPrimSafe, OutOfOrderPrimAggressive]
    | some dss =>
      cases psWritesUavs <;>
        simp [CanDrawPrimsOutOfOrder, OutOfOrderPrimSafe, OutOfOrderPrimAggressive]

/-- Witness for C1 at a concrete input: mode 0 (`Disabled`) is none of
`Safe`, `Aggressive`, `Always`, and the three conclusions evaluate as the
theorem states on concrete state objects. -/
theorem canDrawPrimsOutOfOrder_mode_gating_witness :
    (CanDrawPrimsOutOfOrder false (fun _ => 1) (some ⟨false, false⟩)
        (some ⟨true, true, false, false, false⟩) none 2 OutOfOrderPrimAlways = true)
  ∧ (CanDrawPrimsOutOfOrder false (fun _ => 1) (some ⟨false, false⟩)
        (some ⟨true, true, false, false, false⟩) none 2 OutOfOrderPrimDisable = false)
  ∧ (CanDrawPrimsOutOfOrder false (fun _ => 1) none
        (some ⟨true, true, false, false, false⟩) none 2 OutOfOrderPrimSafe = false) :=
  canDrawPrimsOutOfOrder_mode_gating false (fun _ => 1) (some ⟨false, false⟩)
    (some ⟨true, true, false, false, false⟩) none 2 OutOfOrderPrimDisable
    (by decide) (by decide) (by decide)

/-- C10: For every caller-supplied per-draw limit, `CalcMaxWavesPerSh`
returns 0 ("unlimited") when `maxWavesPerCu` is 0, and otherwise a value
between 1 and the device's graphics maximum expressed in 16-wave units —
so a small nonzero caller limit is never rounded down to 0.  The
hypotheses are the code's own assumptions: the asserted
`maxWavesPerCu <= numWavefrontsPerCu`, the physical fact
`numCuPerSh <= maxNumCuPerSh`, and a device maximum of at least one
16-wave unit. -/
theorem calcMaxWavesPerSh_bounds (chip : WaveChipProps) (maxWavesPerCu : Nat)
    (hAssert : maxWavesPerCu ≤ chip.numSimdPerCu * chip.numWavesPerSimd)
    (hCu : chip.numCuPerSh ≤ chip.maxNumCuPerSh)
    (hDev : 16 ≤ chip.maxNumCuPerSh * (chip.numSimdPerCu * chip.numWavesPerSimd)) :
    (maxWavesPerCu = 0 → CalcMaxWavesPerSh chip maxWavesPerCu = 0)
  ∧ (0 < maxWavesPerCu →
      1 ≤ CalcMaxWavesPerSh chip maxWavesPerCu ∧
      CalcMaxWavesPerSh chip maxWavesPerCu ≤
        chip.maxNumCuPerSh * (chip.numSimdPerCu * chip.numWavesPerSimd) / 16) := by
  constructor
  · intro h
    simp [CalcMaxWavesPerSh, h]
  · intro hpos
    have hval : CalcMaxWavesPerSh chip maxWavesPerCu =
        min (chip.maxNumCuPerSh * (chip.numSimdPerCu * chip.numWavesPerSimd))
            (max 1 (maxWavesPerCu * chip.numCuPerSh / 16)) := by
      simp [CalcMaxWavesPerSh, hpos]
    have hxA : maxWavesPerCu * chip.numCuPerSh ≤
        chip.maxNumCuPerSh * (chip.numSimdPerCu * chip.numWavesPerSimd) := by
      calc maxWavesPerCu * chip.numCuPerSh
          ≤ (chip.numSimdPerCu * chip.numWavesPerSimd) * chip.maxNumCuPerSh :=
            Nat.mul_le_mul hAssert hCu
        _ = chip.maxNumCuPerSh * (chip.numSimdPerCu * chip.numWavesPerSimd) :=
            Nat.mul_comm _ _
    constructor
    · rw [hval]
      exact le_min (by omega) (le_max_left _ _)
    · rw [hval]
      refine le_trans (min_le_right _ _) (max_le ?_ ?_)
      · exact (Nat.le_div_iff_mul_le (by norm_num)).mpr (by omega)
      · exact Nat.div_le_div_right hxA

/-- Witness for C10 at a concrete chip (4 SIMD/CU, 10 waves/SIMD, 8 CUs per
SH) and a caller limit of 1 wave per CU. -/
theorem calcMaxWavesPerSh_bounds_witness :
    (1 = 0 → CalcMaxWavesPerSh ⟨4, 10, 8, 8⟩ 1 = 0)
  ∧ (0 < 1 →
      1 ≤ CalcMaxWavesPerSh ⟨4, 10, 8, 8⟩ 1 ∧
      CalcMaxWavesPerSh ⟨4, 10, 8, 8⟩ 1 ≤ 8 * (4 * 10) / 16) :=
  calcMaxWavesPerSh_bounds ⟨4, 10, 8, 8⟩ 1 (by decide) (by decide) (by decide)

/-- C4: On a hardware generation that has the late-alloc register
(gfxLevel ≠ 6, with a well-formed device maximum), the stored LIMIT field
equals the computed limit minus one clamped to [0, deviceMax - 1]; it
never exceeds deviceMax - 1; it is 0 whenever the requested target is 0;
and on the oldest generation (gfxLevel = 6, register absent) it stays 0. -/
theorem setupLateAllocVs_limit_field (i : LateAllocVsInput)
    (hmin : 1 ≤ i.maxLateAllocVsLimit) (hmax : i.maxLateAllocVsLimit < 2 ^ 32) :
    (i.gfxLevel ≠ 6 →
      spiShaderLateAllocVsLimit i =
        min (lateAllocVsLimitPreClamp i - 1) (i.maxLateAllocVsLimit - 1))
  ∧ (spiShaderLateAllocVsLimit i ≤ i.maxLateAllocVsLimit - 1)
  ∧ (i.targetLateAllocLimit = 0 → spiShaderLateAllocVsLimit i = 0)
  ∧ (i.gfxLevel = 6 → spiShaderLateAllocVsLimit i = 0) := by
  have hwrap : (i.maxLateAllocVsLimit + (2 ^ 32 - 1)) % 2 ^ 32 =
      i.maxLateAllocVsLimit - 1 := by omega
  have hpre0 : i.targetLateAllocLimit = 0 → lateAllocVsLimitPreClamp i = 0 := by
    intro h
    simp [lateAllocVsLimitPreClamp, h]
  have hif : (if 0 < lateAllocVsLimitPreClamp i then lateAllocVsLimitPreClamp i - 1 else 0)
      = lateAllocVsLimitPreClamp i - 1 := by
    split <;> omega
  refine ⟨?_, ?_, ?_, ?_⟩
  · intro h6
    unfold spiShaderLateAllocVsLimit
    rw [if_neg h6, hwrap]
    simp only [hif]
  · unfold spiShaderLateAllocVsLimit
    split
    · omega
    · rw [hwrap]
      simp only [hif]
      exact min_le_right _ _
  · intro h
    unfold spiShaderLateAllocVsLimit
    split
    · rfl
    · simp [hpre0 h]
  · intro h6
    unfold spiShaderLateAllocVsLimit
    rw [if_pos h6]

/-- Witness for C4: a Gfx8 device with deviceMax 64 and a computed-mode
target of 4 waves. -/
theorem setupLateAllocVs_limit_field_witness :
    let i : LateAllocVsInput :=
      ⟨8, false, 4, 12, 16, false, false, 8, 8, 512, 256, false, 32, 64⟩
    (i.gfxLevel ≠ 6 →
      spiShaderLateAllocVsLimit i =
        min (lateAllocVsLimitPreClamp i - 1) (i.maxLateAllocVsLimit - 1))
  ∧ (spiShaderLateAllocVsLimit i ≤ i.maxLateAllocVsLimit - 1)
  ∧ (i.targetLateAllocLimit = 0 → spiShaderLateAllocVsLimit i = 0)
  ∧ (i.gfxLevel = 6 → spiShaderLateAllocVsLimit i = 0) :=
  setupLateAllocVs_limit_field
    ⟨8, false, 4, 12, 16, false, false, 8, 8, 512, 256, false, 32, 64⟩
    (by decide) (by norm_num)

theorem setupIaOnchipGs_primgroupSize (pipe : IaPipelineState)
    (p : IaMultiVgtParamRegs) :
    (setupIaOnchipGs pipe p).primgroupSize = p.primgroupSize := by
  unfold setupIaOnchipGs
  split <;> rfl

theorem setupIaNullPrim_primgroupSize (pipe : IaPipelineState)
    (p : IaMultiVgtParamRegs) :
    (setupIaNullPrim pipe p).primgroupSize = p.primgroupSize := by
  unfold setupIaNullPrim
  split <;> rfl

/-- Both per-slot IA_MULTI_VGT_PARAM values keep the PRIMGROUP_SIZE chosen
by the initial selection chain: the later workaround steps and the Gfx7+
fixup never touch that field. -/
theorem setupIaMultiVgtParam_primgroupSize_eq (chip : IaChipProps)
    (pipe : IaPipelineState) (binary : IaMultiVgtParamRegs) :
    (SetupIaMultiVgtParam chip pipe binary).1.primgroupSize =
      (setupIaPrimgroup pipe binary).primgroupSize ∧
    (SetupIaMultiVgtParam chip pipe binary).2.primgroupSize =
      (setupIaPrimgroup pipe binary).primgroupSize := by
  unfold SetupIaMultiVgtParam
  constructor <;>
  · dsimp only
    split
    · rw [fixupIaMultiVgtParam_primgroupSize, setupIaNullPrim_primgroupSize,
        setupIaOnchipGs_primgroupSize]
    · rw [setupIaNullPrim_primgroupSize, setupIaOnchipGs_primgroupSize]

/-- C6: For every pipeline and both context slots, the PRIMGROUP_SIZE
field is forced to `numPatches - 1` when tessellation is active; else
forced to `256 / hsNumInputCp - 1` when geometry is active with a known
nonzero fixed input-control-point count; else left at the binary-specified
value (zero being a legal unset value).  The bounds hypotheses state that
the register fields hold representable values (NUM_PATCHES and
HS_NUM_INPUT_CP are narrow bitfields). -/
theorem setupIaMultiVgtParam_primgroup_size (chip : IaChipProps)
    (pipe : IaPipelineState) (binary : IaMultiVgtParamRegs)
    (hPatchLo : 1 ≤ pipe.numPatches) (hPatchHi : pipe.numPatches ≤ 65535)
    (hCp : pipe.hsNumInputCp ≤ 256) :
    (pipe.isTessEnabled = true →
      (SetupIaMultiVgtParam chip pipe binary).1.primgroupSize = pipe.numPatches - 1 ∧
      (SetupIaMultiVgtParam chip pipe binary).2.primgroupSize = pipe.numPatches - 1)
  ∧ (pipe.isTessEnabled = false → pipe.isGsEnabled = true → pipe.hsNumInputCp ≠ 0 →
      (SetupIaMultiVgtParam chip pipe binary).1.primgroupSize =
        256 / pipe.hsNumInputCp - 1 ∧
      (SetupIaMultiVgtParam chip pipe binary).2.primgroupSize =
        256 / pipe.hsNumInputCp - 1)
  ∧ (pipe.isTessEnabled = false → (pipe.isGsEnabled = false ∨ pipe.hsNumInputCp = 0) →
      (SetupIaMultiVgtParam chip pipe binary).1.primgroupSize =
        binary.primgroupSize ∧
      (SetupIaMultiVgtParam chip pipe binary).2.primgroupSize =
        binary.primgroupSize) := by
  obtain ⟨h1, h2⟩ := setupIaMultiVgtParam_primgroupSize_eq chip pipe binary
  refine ⟨?_, ?_, ?_⟩
  · intro hTess
    rw [h1, h2]
    unfold setupIaPrimgroup
    rw [if_pos hTess]
    constructor <;> · show (pipe.numPatches + 65535) % 65536 = pipe.numPatches - 1
                      omega
  · intro hTess hGs hCp0
    rw [h1, h2]
    unfold setupIaPrimgroup
    rw [if_neg (by simp [hTess]), if_pos ⟨hGs, hCp0⟩]
    have hd1 : 1 ≤ 256 / pipe.hsNumInputCp :=
      (Nat.one_le_div_iff (Nat.pos_of_ne_zero hCp0)).mpr hCp
    have hd2 : 256 / pipe.hsNumInputCp ≤ 256 := Nat.div_le_self _ _
    constructor <;>
      · show (256 / pipe.hsNumInputCp + 65535) % 65536 = 256 / pipe.hsNumInputCp - 1
        omega
  · intro hTess hOther
    rw [h1, h2]
    unfold setupIaPrimgroup
    rw [if_neg (by simp [hTess]), if_neg (by
      rintro ⟨hg, hc⟩
      rcases hOther with h | h
      · rw [h] at hg; exact Bool.false_ne_true hg
      · exact hc h)]
    exact ⟨rfl, rfl⟩

/-- Witness for C6: a tessellation-enabled pipeline with 8 patches per
thread-group on a 4-SE Gfx8 part; both slots store PRIMGROUP_SIZE 7. -/
theorem setupIaMultiVgtParam_primgroup_size_witness :
    (SetupIaMultiVgtParam ⟨8, 4, 32⟩ ⟨true, false, false, false, false, 0, 8, 4⟩
        ⟨0, 0, 0, 0, 0, 0, 0⟩).1.primgroupSize = 7 ∧
    (SetupIaMultiVgtParam ⟨8, 4, 32⟩ ⟨true, false, false, false, false, 0, 8, 4⟩
        ⟨0, 0, 0, 0, 0, 0, 0⟩).2.primgroupSize = 7 :=
  (setupIaMultiVgtParam_primgroup_size ⟨8, 4, 32⟩
    ⟨true, false, false, false, false, 0, 8, 4⟩ ⟨0, 0, 0, 0, 0, 0, 0⟩
    (by decide) (by decide) (by decide)).1 rfl

/-- C8: For each of the two register groups, bind-time emission uses the
LOAD packet exactly when a LoadBlock was compiled for that group
(`count != 0`) and the destination command stream's PM4 optimizer is not
enabled; in particular, whenever the optimizer is enabled the emission
falls back to SET packets regardless of the compile-time LoadBlock
choice. -/
theorem writeCommands_load_vs_set (gfxLevel : Nat) (tess gs : Bool)
    (lp : LoadPathInfo) (lateAlloc a b : Nat) (opt : Bool) :
    (usesLoadShPacket (WriteShCommands gfxLevel tess gs lp lateAlloc opt) =
      (decide (lp.countSh ≠ 0) && !opt))
  ∧ (usesLoadCtxPacket (WriteContextCommands tess gs lp a b opt) =
      (decide (lp.countCtx ≠ 0) && !opt)) := by
  constructor
  · unfold WriteShCommands
    by_cases h : lp.countSh = 0 ∨ opt = true
    · rw [if_pos h]
      have hr : (decide (lp.countSh ≠ 0) && !opt) = false := by
        rcases h with h | h <;> simp [h]
      rw [hr]
      by_cases h7 : 7 ≤ gfxLevel <;> cases tess <;> cases gs <;>
        simp [usesLoadShPacket, h7]
    · rw [if_neg h]
      push_neg at h
      have hr : (decide (lp.countSh ≠ 0) && !opt) = true := by
        simp [h.1, h.2]
      rw [hr]
      simp [usesLoadShPacket]
  · unfold WriteContextCommands
    by_cases h : lp.countCtx = 0 ∨ opt = true
    · rw [if_pos h]
      have hr : (decide (lp.countCtx ≠ 0) && !opt) = false := by
        rcases h with h | h <;> simp [h]
      rw [hr]
      cases tess <;> cases gs <;> simp [usesLoadCtxPacket]
    · rw [if_neg h]
      push_neg at h
      have hr : (decide (lp.countCtx ≠ 0) && !opt) = true := by
        simp [h.1, h.2]
      rw [hr]
      simp [usesLoadCtxPacket]

/-- C9: For every register-preload setting, stage-activation combination
and chunk contribution, the context-group and SH-group LoadBlock counts
stored on the pipeline are either both zero or both nonzero, never one of
each. -/
theorem loadPathCounts_paired (enable tess gs : Bool)
    (lsHsSh lsHsCtx esGsSh esGsCtx vsPsSh vsPsCtx : Nat) :
    ((hwlInitLoadPathCounts (earlyInitLoadCounts enable tess gs
        lsHsSh lsHsCtx esGsSh esGsCtx vsPsSh vsPsCtx)).1 = 0 ∧
     (hwlInitLoadPathCounts (earlyInitLoadCounts enable tess gs
        lsHsSh lsHsCtx esGsSh esGsCtx vsPsSh vsPsCtx)).2 = 0)
  ∨ ((hwlInitLoadPathCounts (earlyInitLoadCounts enable tess gs
        lsHsSh lsHsCtx esGsSh esGsCtx vsPsSh vsPsCtx)).1 ≠ 0 ∧
     (hwlInitLoadPathCounts (earlyInitLoadCounts enable tess gs
        lsHsSh lsHsCtx esGsSh esGsCtx vsPsSh vsPsCtx)).2 ≠ 0) := by
  cases enable <;> cases tess <;> cases gs <;>
    simp [hwlInitLoadPathCounts, uploaderEnableLoadIndexPath,
      earlyInitLoadCounts, chunkEarlyInitCounts, BaseLoadedShRegCount,
      BaseLoadedCntxRegCount]

/-- C2 counterexample: an external pipeline with no special flag set (the
`normal` category applies) and a client write mask of 0x3 on RT0.  The
resulting CB_TARGET_MASK is the client's 0x3, not a forced all-channel
mask — the normal category does not override the client-specified write
masks, contradicting the claim that the applying category always forces
all-channel write masks. -/
theorem setupNonShaderCb_counterexample :
    selectCbCategory cbNormalCategoryInput.isFastClearEliminate
      cbNormalCategoryInput.isFmaskDecompress cbNormalCategoryInput.isDccDecompress
      cbNormalCategoryInput.isResolveFixedFunc = CbCategory.normal ∧
    (SetupNonShaderCbRegs cbNormalCategoryInput).cbColorControlMode = CB_NORMAL ∧
    (SetupNonShaderCbRegs cbNormalCategoryInput).cbTargetMask = 0x3 ∧
    (SetupNonShaderCbRegs cbNormalCategoryInput).cbTargetMask ≠ 0xF := by
  decide

/-- C2 (amended): Exactly one of the five categories applies, selected in
precedence order (fast-clear-eliminate, fmask-decompress, dcc-decompress,
fixed-function-resolve, normal), and determines the color mode.  The
first three force all-channel write masks on RT0 by assigning 0xF to both
whole mask registers; fixed-function-resolve forces the all-channel RT0
nibble and keeps the other targets' mask bits; the normal category keeps
the client-specified write masks unchanged and sets mode Normal when both
masks are nonzero, Disable otherwise.  Dual-source blending and toss
points, which post-process these values, are off. -/
theorem setupNonShaderCb_categories (i : CbSetupInput)
    (hDual : i.dualSourceBlendEnable = false)
    (hToss : i.tossPointAfterPs = false) :
    (selectCbCategory i.isFastClearEliminate i.isFmaskDecompress i.isDccDecompress
        i.isResolveFixedFunc = CbCategory.fastClearEliminate →
      (SetupNonShaderCbRegs i).cbColorControlMode = CB_ELIMINATE_FAST_CLEAR ∧
      (SetupNonShaderCbRegs i).cbColorControlRop3 = Rop3 .Copy ∧
      (SetupNonShaderCbRegs i).cbShaderMask = 0xF ∧
      (SetupNonShaderCbRegs i).cbTargetMask = 0xF)
  ∧ (selectCbCategory i.isFastClearEliminate i.isFmaskDecompress i.isDccDecompress
        i.isResolveFixedFunc = CbCategory.fmaskDecompress →
      (SetupNonShaderCbRegs i).cbColorControlMode = CB_FMASK_DECOMPRESS ∧
      (SetupNonShaderCbRegs i).cbColorControlRop3 = Rop3 .Copy ∧
      (SetupNonShaderCbRegs i).cbShaderMask = 0xF ∧
      (SetupNonShaderCbRegs i).cbTargetMask = 0xF)
  ∧ (selectCbCategory i.isFastClearEliminate i.isFmaskDecompress i.isDccDecompress
        i.isResolveFixedFunc = CbCategory.dccDecompress →
      (SetupNonShaderCbRegs i).cbColorControlMode = CB_DCC_DECOMPRESS ∧
      (SetupNonShaderCbRegs i).cbColorControlRop3 = Rop3 .Copy ∧
      (SetupNonShaderCbRegs i).cbShaderMask = 0xF ∧
      (SetupNonShaderCbRegs i).cbTargetMask = 0xF)
  ∧ (selectCbCategory i.isFastClearEliminate i.isFmaskDecompress i.isDccDecompress
        i.isResolveFixedFunc = CbCategory.resolveFixedFunc →
      (SetupNonShaderCbRegs i).cbColorControlMode = CB_RESOLVE ∧
      (SetupNonShaderCbRegs i).cbColorControlRop3 = Rop3 .Copy ∧
      (SetupNonShaderCbRegs i).cbShaderMask = i.regCbShaderMask / 16 * 16 + 0xF ∧
      (SetupNonShaderCbRegs i).cbTargetMask =
        cbTargetMaskFromCreateInfo i.channelWriteMask / 16 * 16 + 0xF)
  ∧ (selectCbCategory i.isFastClearEliminate i.isFmaskDecompress i.isDccDecompress
        i.isResolveFixedFunc = CbCategory.normal →
      (SetupNonShaderCbRegs i).cbShaderMask = i.regCbShaderMask ∧
      (SetupNonShaderCbRegs i).cbTargetMask =
        cbTargetMaskFromCreateInfo i.channelWriteMask ∧
      ((i.regCbShaderMask = 0 ∨ cbTargetMaskFromCreateInfo i.channelWriteMask = 0) →
        (SetupNonShaderCbRegs i).cbColorControlMode = CB_DISABLE) ∧
      (¬(i.regCbShaderMask = 0 ∨ cbTargetMaskFromCreateInfo i.channelWriteMask = 0) →
        (SetupNonShaderCbRegs i).cbColorControlMode = CB_NORMAL ∧
        (SetupNonShaderCbRegs i).cbColorControlRop3 = Rop3 i.logicOp)) := by
  have hA : (SetupNonShaderCbRegs i).cbColorControlMode = (cbCategoryRegs i).1 := by
    unfold SetupNonShaderCbRegs
    simp [hDual]
  have hB : (SetupNonShaderCbRegs i).cbColorControlRop3 = (cbCategoryRegs i).2.1 := by
    unfold SetupNonShaderCbRegs
    simp
  have hC : (SetupNonShaderCbRegs i).cbShaderMask = (cbCategoryRegs i).2.2.1 := by
    unfold SetupNonShaderCbRegs
    simp
  have hD : (SetupNonShaderCbRegs i).cbTargetMask = (cbCategoryRegs i).2.2.2 := by
    unfold SetupNonShaderCbRegs
    simp [hToss]
  refine ⟨?_, ?_, ?_, ?_, ?_⟩
  · intro hsel
    cases hf1 : i.isFastClearEliminate with
    | false =>
      exfalso
      simp only [selectCbCategory, hf1, Bool.false_eq_true, if_false] at hsel
      repeat' split at hsel
      all_goals simp_all
    | true =>
      have hcat : cbCategoryRegs i = (CB_ELIMINATE_FAST_CLEAR, Rop3 .Copy, 0xF, 0xF) := by
        simp [cbCategoryRegs, hf1]
      exact ⟨by rw [hA, hcat], by rw [hB, hcat], by rw [hC, hcat], by rw [hD, hcat]⟩
  · intro hsel
    cases hf1 : i.isFastClearEliminate with
    | true => simp [selectCbCategory, hf1] at hsel
    | false =>
      cases hf2 : i.isFmaskDecompress with
      | false =>
        exfalso
        simp only [selectCbCategory, hf1, hf2, Bool.false_eq_true, if_false] at hsel
        repeat' split at hsel
        all_goals simp_all
      | true =>
        have hcat : cbCategoryRegs i = (CB_FMASK_DECOMPRESS, Rop3 .Copy, 0xF, 0xF) := by
          simp [cbCategoryRegs, hf1, hf2]
        exact ⟨by rw [hA, hcat], by rw [hB, hcat], by rw [hC, hcat], by rw [hD, hcat]⟩
  · intro hsel
    cases hf1 : i.isFastClearEliminate with
    | true => simp [selectCbCategory, hf1] at hsel
    | false =>
      cases hf2 : i.isFmaskDecompress with
      | true => simp [selectCbCategory, hf1, hf2] at hsel
      | false =>
        cases hf3 : i.isDccDecompress with
        | false =>
          exfalso
          simp only [selectCbCategory, hf1, hf2, hf3, Bool.false_eq_true, if_false] at hsel
          repeat' split at hsel
          all_goals simp_all
        | true =>
          have hcat : cbCategoryRegs i = (CB_DCC_DECOMPRESS, Rop3 .Copy, 0xF, 0xF) := by
            simp [cbCategoryRegs, hf1, hf2, hf3]
          exact ⟨by rw [hA, hcat], by rw [hB, hcat], by rw [hC, hcat], by rw [hD, hcat]⟩
  · intro hsel
    cases hf1 : i.isFastClearEliminate with
    | true => simp [selectCbCategory, hf1] at hsel
    | false =>
      cases hf2 : i.isFmaskDecompress with
      | true => simp [selectCbCategory, hf1, hf2] at hsel
      | false =>
        cases hf3 : i.isDccDecompress with
        | true => simp [selectCbCategory, hf1, hf2, hf3] at hsel
        | false =>
          cases hf4 : i.isResolveFixedFunc with
          | false => simp [selectCbCategory, hf1, hf2, hf3, hf4] at hsel
          | true =>
            have hcat : cbCategoryRegs i = (CB_RESOLVE, Rop3 .Copy,
                i.regCbShaderMask / 16 * 16 + 0xF,
                cbTargetMaskFromCreateInfo i.channelWriteMask / 16 * 16 + 0xF) := by
              simp [cbCategoryRegs, hf1, hf2, hf3, hf4]
            exact ⟨by rw [hA, hcat], by rw [hB, hcat], by rw [hC, hcat], by rw [hD, hcat]⟩
  · intro hsel
    cases hf1 : i.isFastClearEliminate with
    | true => simp [selectCbCategory, hf1] at hsel
    | false =>
      cases hf2 : i.isFmaskDecompress with
      | true => simp [selectCbCategory, hf1, hf2] at hsel
      | false =>
        cases hf3 : i.isDccDecompress with
        | true => simp [selectCbCategory, hf1, hf2, hf3] at hsel
        | false =>
          cases hf4 : i.isResolveFixedFunc with
          | true => simp [selectCbCategory, hf1, hf2, hf3, hf4] at hsel
          | false =>
            by_cases hz : (i.regCbShaderMask = 0 ∨
                cbTargetMaskFromCreateInfo i.channelWriteMask = 0)
            · have hcat : cbCategoryRegs i = (CB_DISABLE, 0, i.regCbShaderMask,
                  cbTargetMaskFromCreateInfo i.channelWriteMask) := by
                simp only [cbCategoryRegs, hf1, hf2, hf3, hf4, Bool.false_eq_true,
                  if_false]
                rw [if_pos hz]
              exact ⟨by rw [hC, hcat], by rw [hD, hcat],
                fun _ => by rw [hA, hcat], fun hc => absurd hz hc⟩
            · have hcat : cbCategoryRegs i = (CB_NORMAL, Rop3 i.logicOp,
                  i.regCbShaderMask, cbTargetMaskFromCreateInfo i.channelWriteMask) := by
                simp only [cbCategoryRegs, hf1, hf2, hf3, hf4, Bool.false_eq_true,
                  if_false]
                rw [if_neg hz]
              exact ⟨by rw [hC, hcat], by rw [hD, hcat],
                fun hc => absurd hc hz,
                fun _ => ⟨by rw [hA, hcat], by rw [hB, hcat]⟩⟩

/-- Witness for the amended C2 theorem: the fast-clear-eliminate pipeline
forces color mode ELIMINATE_FAST_CLEAR, the Copy ROP3 code, and
all-channel RT0 write masks over the client's 0x3. -/
theorem setupNonShaderCb_categories_witness :
    (SetupNonShaderCbRegs cbFceInput).cbColorControlMode = CB_ELIMINATE_FAST_CLEAR ∧
    (SetupNonShaderCbRegs cbFceInput).cbColorControlRop3 = Rop3 .Copy ∧
    (SetupNonShaderCbRegs cbFceInput).cbShaderMask = 0xF ∧
    (SetupNonShaderCbRegs cbFceInput).cbTargetMask = 0xF :=
  (setupNonShaderCb_categories cbFceInput rfl rfl).1 rfl

/-- C3 counterexample: a register list whose only user-SGPR entry is the
base-instance role, with base-vertex mapped nowhere.  The scan accepts it
silently — no internal-consistency check fires (`assertFailed = false`,
because the BaseInstance assert explicitly tolerates
`vertexOffsetRegAddr == UserDataNotMapped`) — and records `address - 1`
as the base-vertex register, so a base-instance entry without an adjacent
base-vertex entry is not detected. -/
theorem setupSignature_baseInstance_counterexample :
    (SetupSignatureForStageScan vsStageScanConfig regsOnlyBaseInstance).assertFailed
      = false ∧
    (SetupSignatureForStageScan vsStageScanConfig regsOnlyBaseInstance).vertexOffsetRegAddr
      = mmSPI_SHADER_USER_DATA_VS_0 - 1 ∧
    (SetupSignatureForStageScan vsStageScanConfig regsOnlyBaseInstance).vertexOffsetRegAddr
      ≠ UserDataNotMapped := by
  decide

/-- C3 (amended): When the scan reaches a base-instance entry, it flags an
internal-consistency failure exactly when base-vertex is already mapped at
an address other than `address - 1`; when base-vertex is mapped at
`address - 1` — or not mapped at all, in which case the entry is accepted
silently — no failure is flagged.  In every case the base-vertex register
address is (re)set to `address - 1`.  The two hypotheses state that the
metadata's backward-compatibility sentinels do not collide with the
base-instance enumerator, as in the real ABI encoding. -/
theorem processBaseInstance_adjacency (cfg : StageScanConfig) (offset : Nat)
    (s : GfxSignatureState)
    (hso : (UserDataMappingBaseInstance + 1) % 2 ^ 32 ≠ cfg.streamOutTableEntryPlus1)
    (hind : (UserDataMappingBaseInstance + 1) % 2 ^ 32 ≠ cfg.indirectTableEntryPlus1) :
    ((s.vertexOffsetRegAddr = offset - 1 ∨ s.vertexOffsetRegAddr = UserDataNotMapped) →
      (processUserDataRegister cfg offset UserDataMappingBaseInstance s).assertFailed =
        s.assertFailed ∧
      (processUserDataRegister cfg offset UserDataMappingBaseInstance s).vertexOffsetRegAddr =
        offset - 1)
  ∧ (¬(s.vertexOffsetRegAddr = offset - 1 ∨ s.vertexOffsetRegAddr = UserDataNotMapped) →
      (processUserDataRegister cfg offset UserDataMappingBaseInstance s).assertFailed =
        true ∧
      (processUserDataRegister cfg offset UserDataMappingBaseInstance s).vertexOffsetRegAddr =
        offset - 1) := by
  constructor
  · intro h
    unfold processUserDataRegister
    rw [if_neg hso, if_neg hind]
    simp only [UserDataMappingBaseInstance, UserDataMappingGlobalTable,
      UserDataMappingPerShaderTable, UserDataMappingSpillTable,
      UserDataMappingWorkgroup, UserDataMappingBaseVertex,
      UserDataMappingDrawIndex, UserDataMappingEsGsLdsSize,
      UserDataMappingBaseIndex, UserDataMappingLog2IndexSize,
      UserDataMappingViewId, MaxUserDataEntries, UserDataNotMapped] at h ⊢
    norm_num
    rw [if_pos (by simpa using h)]
  · intro h
    unfold processUserDataRegister
    rw [if_neg hso, if_neg hind]
    simp only [UserDataMappingBaseInstance, UserDataMappingGlobalTable,
      UserDataMappingPerShaderTable, UserDataMappingSpillTable,
      UserDataMappingWorkgroup, UserDataMappingBaseVertex,
      UserDataMappingDrawIndex, UserDataMappingEsGsLdsSize,
      UserDataMappingBaseIndex, UserDataMappingLog2IndexSize,
      UserDataMappingViewId, MaxUserDataEntries, UserDataNotMapped] at h ⊢
    norm_num
    rw [if_neg (by simpa using h)]

/-- Witness for the amended C3 theorem: the initial (all-unmapped) state
accepts a base-instance entry at register 0x2C50 without any failure and
records 0x2C4F as the base-vertex register. -/
theorem processBaseInstance_adjacency_witness :
    (processUserDataRegister vsStageScanConfig 0x2C50 UserDataMappingBaseInstance
        initGfxSignatureState).assertFailed = false ∧
    (processUserDataRegister vsStageScanConfig 0x2C50 UserDataMappingBaseInstance
        initGfxSignatureState).vertexOffsetRegAddr = 0x2C4F :=
  (processBaseInstance_adjacency vsStageScanConfig 0x2C50 initGfxSignatureState
    (by decide) (by decide)).1 (Or.inr rfl)

open SX_DOWNCONVERT_FORMAT in
/-- C7: For each of the 9 canonical downconvert codes, `SxBlendOptEpsilon`
returns exactly the fixed table value (4:4:4:4 → 15, 5:6:5 → 11,
1:5:5:5 → 13, 8:8:8:8 → 6, 10:11:11 float → 0, 2:10:10:10 → 3, both 16:16
orderings → 0, 32-bit single channel → 0), and every channel format
outside the downconvert table maps to `SX_RT_EXPORT_NO_CONVERSION` with a
slot epsilon of 0. -/
theorem sxBlendOptEpsilon_table :
    (SxBlendOptEpsilon SX_RT_EXPORT_4_4_4_4 = 15)
  ∧ (SxBlendOptEpsilon SX_RT_EXPORT_5_6_5 = 11)
  ∧ (SxBlendOptEpsilon SX_RT_EXPORT_1_5_5_5 = 13)
  ∧ (SxBlendOptEpsilon SX_RT_EXPORT_8_8_8_8 = 6)
  ∧ (SxBlendOptEpsilon SX_RT_EXPORT_10_11_11 = 0)
  ∧ (SxBlendOptEpsilon SX_RT_EXPORT_2_10_10_10 = 3)
  ∧ (SxBlendOptEpsilon SX_RT_EXPORT_16_16_GR = 0)
  ∧ (SxBlendOptEpsilon SX_RT_EXPORT_16_16_AR = 0)
  ∧ (SxBlendOptEpsilon SX_RT_EXPORT_32_R = 0)
  ∧ (∀ n : Nat, SxDownConvertFormat (.otherFmt n) = SX_RT_EXPORT_NO_CONVERSION ∧
      blendOptEpsilonForFormat (.otherFmt n) = 0) :=
  ⟨rfl, rfl, rfl, rfl, rfl, rfl, rfl, rfl, rfl, fun _ => ⟨rfl, rfl⟩⟩

/-- C5: On Gfx7-and-newer hardware and for each context slot (the slot's
`forceWdSwitchOnEop` flag), the fixup forces WD_SWITCH_ON_EOP to 1 when
SWITCH_ON_EOP is 1, or the shader-engine count is at most 2, or the slot
explicitly requires it; otherwise it sets WD_SWITCH_ON_EOP to 0 and then
forces SWITCH_ON_EOI and PARTIAL_ES_WAVE_ON to 1. -/
theorem fixupIaMultiVgtParam_wdSwitchOnEop (chip : IaChipProps)
    (pipe : IaPipelineState) (force : Bool) (p : IaMultiVgtParamRegs) :
    ((p.switchOnEop = 1 ∨ chip.numShaderEngines ≤ 2 ∨ force = true) →
      (FixupIaMultiVgtParamOnGfx7Plus chip pipe force p).wdSwitchOnEop = 1)
  ∧ (¬(p.switchOnEop = 1 ∨ chip.numShaderEngines ≤ 2 ∨ force = true) →
      (FixupIaMultiVgtParamOnGfx7Plus chip pipe force p).wdSwitchOnEop = 0 ∧
      (FixupIaMultiVgtParamOnGfx7Plus chip pipe force p).switchOnEoi = 1 ∧
      (FixupIaMultiVgtParamOnGfx7Plus chip pipe force p).partEsWaveOn = 1) := by
  have hEop : (fixupIaGfx8 chip pipe (fixupIaGsTable chip pipe p)).switchOnEop
      = p.switchOnEop := by
    rw [fixupIaGfx8_switchOnEop, fixupIaGsTable_switchOnEop]
  obtain ⟨hw, he, hp2⟩ := fixupIaEoiPairing_wdAndEoi chip
    (fixupIaWdSwitch chip force (fixupIaGfx8 chip pipe (fixupIaGsTable chip pipe p)))
  constructor
  · intro h
    show (fixupIaEoiPairing chip (fixupIaWdSwitch chip force
      (fixupIaGfx8 chip pipe (fixupIaGsTable chip pipe p)))).wdSwitchOnEop = 1
    rw [hw]
    unfold fixupIaWdSwitch
    rw [hEop, if_pos h]
  · intro h
    refine ⟨?_, ?_, ?_⟩
    · show (fixupIaEoiPairing chip (fixupIaWdSwitch chip force
        (fixupIaGfx8 chip pipe (fixupIaGsTable chip pipe p)))).wdSwitchOnEop = 0
      rw [hw]
      unfold fixupIaWdSwitch
      rw [hEop, if_neg h]
    · show (fixupIaEoiPairing chip (fixupIaWdSwitch chip force
        (fixupIaGfx8 chip pipe (fixupIaGsTable chip pipe p)))).switchOnEoi = 1
      rw [he]
      unfold fixupIaWdSwitch
      rw [hEop, if_neg h]
    · show (fixupIaEoiPairing chip (fixupIaWdSwitch chip force
        (fixupIaGfx8 chip pipe (fixupIaGsTable chip pipe p)))).partEsWaveOn = 1
      rw [hp2]
      unfold fixupIaWdSwitch
      rw [hEop, if_neg h]

/-- Witness for C5: a 4-SE Gfx8 part, slot 0 (no external force), with
SWITCH_ON_EOP clear in the binary: none of the forcing conditions holds,
so the "otherwise" arm fires, giving WD_SWITCH_ON_EOP 0 and
SWITCH_ON_EOI / PARTIAL_ES_WAVE_ON 1. -/
theorem fixupIaMultiVgtParam_wdSwitchOnEop_witness :
    (FixupIaMultiVgtParamOnGfx7Plus ⟨8, 4, 32⟩
        ⟨false, false, false, false, false, 0, 0, 0⟩ false
        ⟨255, 0, 0, 0, 0, 0, 0⟩).wdSwitchOnEop = 0 ∧
    (FixupIaMultiVgtParamOnGfx7Plus ⟨8, 4, 32⟩
        ⟨false, false, false, false, false, 0, 0, 0⟩ false
        ⟨255, 0, 0, 0, 0, 0, 0⟩).switchOnEoi = 1 ∧
    (FixupIaMultiVgtParamOnGfx7Plus ⟨8, 4, 32⟩
        ⟨false, false, false, false, false, 0, 0, 0⟩ false
        ⟨255, 0, 0, 0, 0, 0, 0⟩).partEsWaveOn = 1 :=
  (fixupIaMultiVgtParam_wdSwitchOnEop ⟨8, 4, 32⟩
    ⟨false, false, false, false, false, 0, 0, 0⟩ false
    ⟨255, 0, 0, 0, 0, 0, 0⟩).2 (by decide)

end PalGfx6
